import Mathlib

/-!
Verification development for the graph-to-text corpus generator
(`GENERATE_CORPUS.py`, class `GraphCorpusGenerator`).

The Python program is shallowly embedded below.  JSON dictionaries loaded
from the two input documents are modelled by structures whose fields are
`Option`-typed: a field is `none` exactly when the corresponding key is
absent from the dictionary, and every `dict.get(key, default)` call in the
source is rendered as `Option.getD`.  Python string operations used by the
generator (`str.split()`, `"sep".join`, substring membership via `in`,
`str.strip()`, `str.capitalize()`, `str.replace`) are given executable
definitions on `List Char` so that concrete evaluations reduce in the
kernel.  `int(x * 1.3)` on a non-negative word count truncates toward zero;
for every count in range it equals `13 * words / 10` in natural-number
division, which is how it is embedded (checked exhaustively for
`words < 200000` against CPython's float semantics).
-/

namespace CorpusGen

/-- Python `"sep".join(parts)`. -/
def pyJoin (sep : String) : List String → String
  | [] => ""
  | [x] => x
  | x :: y :: xs => x ++ sep ++ pyJoin sep (y :: xs)

/-- Auxiliary worker for `pyWords`; accumulates the current word reversed. -/
def pyWordsAux : List Char → List Char → List String
  | [], acc => if acc.isEmpty then [] else [String.mk acc.reverse]
  | c :: rest, acc =>
    if c.isWhitespace then
      if acc.isEmpty then pyWordsAux rest []
      else String.mk acc.reverse :: pyWordsAux rest []
    else pyWordsAux rest (c :: acc)

/-- Python `s.split()` with no argument: split on runs of whitespace,
producing no empty tokens (`"".split() == []`). -/
def pyWords (s : String) : List String := pyWordsAux s.data []

/-- Does `needle` occur as a contiguous sublist of `hay`?  Models Python
`needle in hay` on strings. -/
def listContainsSub (hay needle : List Char) : Bool :=
  match hay with
  | [] => needle.isEmpty
  | _ :: t => needle.isPrefixOf hay || listContainsSub t needle

/-- Python substring membership `needle in hay`. -/
def containsSub (hay needle : String) : Bool :=
  listContainsSub hay.data needle.data

/-- Number of positions of `hay` at which `needle` matches (needles used in
this development cannot overlap themselves, so this coincides with Python's
non-overlapping `hay.count(needle)`). -/
def listCountSub (hay needle : List Char) : Nat :=
  match hay with
  | [] => 0
  | _ :: t => (if needle.isPrefixOf hay then 1 else 0) + listCountSub t needle

/-- Occurrence count of a (non-empty, non-self-overlapping) substring. -/
def countSub (hay needle : String) : Nat :=
  listCountSub hay.data needle.data

/-- Digits of `n`, most significant first; `fuel` bounds the recursion. -/
def natToStrAux : Nat → Nat → List Char → List Char
  | 0, _, acc => acc
  | fuel + 1, n, acc =>
    let d := Char.ofNat (48 + n % 10)
    if n < 10 then d :: acc else natToStrAux fuel (n / 10) (d :: acc)

/-- Decimal rendering of a natural number, as Python's `str`/f-string does. -/
def pyNatStr (n : Nat) : String := String.mk (natToStrAux (n + 1) n [])

/-- Python `s.capitalize()`: first character upper-cased, the rest
lower-cased. -/
def pyCapitalize (s : String) : String :=
  match s.data with
  | [] => ""
  | c :: rest => String.mk (c.toUpper :: rest.map Char.toLower)

/-- Python `s.strip()`: drop whitespace from both ends. -/
def pyStrip (s : String) : String :=
  String.mk (((s.data.dropWhile Char.isWhitespace).reverse.dropWhile
    Char.isWhitespace).reverse)

/-- Python `s.replace('_', ' ')`. -/
def pyReplaceUnderscore (s : String) : String :=
  String.mk (s.data.map fun c => if c = '_' then ' ' else c)

/-- Rendering of a `dict.get(key)` result inside an f-string: a missing key
yields `None`, which Python renders as the text `None`. -/
def pyStrOpt : Option String → String
  | some s => s
  | none => "None"

/-! ## Data model

One structure per JSON dictionary shape read by the generator.  An
`Option`-typed field is `none` exactly when the key is absent. -/

/-- The `meta` sub-dictionary of a dimension (`subEntity` key optional). -/
structure DimMeta where
  subEntity : Option String := none
deriving DecidableEq

/-- A measure record of an entity. -/
structure Measure where
  name : Option String := none
  title : Option String := none
  shortTitle : Option String := none
  description : Option String := none
  type : Option String := none
  aggType : Option String := none
  isVisible : Option Bool := none
  public : Option Bool := none
  cumulative : Option Bool := none
deriving DecidableEq

/-- A dimension record of an entity. -/
structure Dimension where
  name : Option String := none
  title : Option String := none
  type : Option String := none
  description : Option String := none
  primaryKey : Option Bool := none
  isVisible : Option Bool := none
  public : Option Bool := none
  suggestFilterValues : Option Bool := none
  aliasMember : Option String := none
  meta : Option DimMeta := none
deriving DecidableEq

/-- An entity (cube or view) of the metadata document's `cubes` sequence. -/
structure Entity where
  name : Option String := none
  title : Option String := none
  type : Option String := none
  description : Option String := none
  isVisible : Option Bool := none
  public : Option Bool := none
  connectedComponents : Option (List String) := none
  measures : Option (List Measure) := none
  dimensions : Option (List Dimension) := none
deriving DecidableEq

/-- Python truthiness `not entity_dict`: the dictionary has no keys. -/
def Entity.isEmptyDict (e : Entity) : Bool :=
  e.name.isNone && e.title.isNone && e.type.isNone && e.description.isNone &&
  e.isVisible.isNone && e.public.isNone && e.connectedComponents.isNone &&
  e.measures.isNone && e.dimensions.isNone

/-- The loaded metadata document (`self.metadata`). -/
structure Metadata where
  cubes : Option (List Entity) := none

/-- A functional-area record of a subdivision. -/
structure FunctionalArea where
  name : Option String := none
  display_name : Option String := none
  description : Option String := none

/-- A view entry of a subdivision's `views` list. -/
structure TaxView where
  name : Option String := none
  type : Option String := none
  functional_area : Option String := none
  tags : Option (List String) := none

/-- A subdivision record of a business unit (the source also reads an
optional `display_name` key on it). -/
structure Subdivision where
  display_name : Option String := none
  description : Option String := none
  functional_areas : Option (List FunctionalArea) := none
  views : Option (List TaxView) := none

/-- A business-unit record. -/
structure BusinessUnit where
  display_name : Option String := none
  description : Option String := none
  subdivisions : Option (List (String × Subdivision)) := none

/-- The `division` record of the hierarchy. -/
structure Division where
  name : Option String := none
  business_units : Option (List (String × BusinessUnit)) := none

/-- The `hierarchy` record of the taxonomy. -/
structure Hierarchy where
  division : Option Division := none

/-- The `organization` record of the taxonomy. -/
structure Organization where
  name : Option String := none
  code : Option String := none

/-- A view-classification record. -/
structure ViewClassification where
  purpose : Option String := none
  data_domains : Option (List String) := none
  primary_users : Option (List String) := none
  update_frequency : Option String := none

/-- A view-relationship record. -/
structure ViewRelationship where
  related_views : Option (List String) := none
  shared_measures : Option (List String) := none
  shared_dimensions : Option (List String) := none
  relationship_type : Option String := none

/-- The `metadata` counts record of the taxonomy. -/
structure MetaCounts where
  total_views : Option Nat := none
  view_types : Option (List (String × Nat)) := none
  business_units : Option Nat := none
  subdivisions : Option Nat := none
  functional_areas : Option Nat := none

/-- Python truthiness `if metadata:` on the counts dictionary. -/
def MetaCounts.isEmptyDict (m : MetaCounts) : Bool :=
  m.total_views.isNone && m.view_types.isNone && m.business_units.isNone &&
  m.subdivisions.isNone && m.functional_areas.isNone

/-- The loaded taxonomy document (`self.taxonomy`). -/
structure Taxonomy where
  organization : Option Organization := none
  hierarchy : Option Hierarchy := none
  view_classifications : Option (List (String × ViewClassification)) := none
  view_relationships : Option (List (String × ViewRelationship)) := none
  metadata : Option MetaCounts := none

/-- Python truthiness `if self.taxonomy:`: the loaded document has no keys
(in particular, a failed load yields `{}`). -/
def Taxonomy.isEmptyDict (t : Taxonomy) : Bool :=
  t.organization.isNone && t.hierarchy.isNone && t.view_classifications.isNone &&
  t.view_relationships.isNone && t.metadata.isNone

/-! ## Entity classification (`generate_full_corpus`, lines 65–71)

The three list comprehensions over `cubes_list`. -/

/-- `[c for c in cubes_list if c.get('name') == 'semantic_catalog']`. -/
def catalog_views (cubes_list : List Entity) : List Entity :=
  cubes_list.filter fun c => c.name == some "semantic_catalog"

/-- `[c for c in cubes_list if c.get('type') == 'view' and c.get('name') != 'semantic_catalog']`. -/
def semantic_views (cubes_list : List Entity) : List Entity :=
  cubes_list.filter fun c =>
    c.type == some "view" && !(c.name == some "semantic_catalog")

/-- `[c for c in cubes_list if c.get('type') == 'cube']`. -/
def data_cubes (cubes_list : List Entity) : List Entity :=
  cubes_list.filter fun c => c.type == some "cube"

/-! ## `generate_catalog_description` -/

/-- The fixed text emitted before the dimension bullets of the catalog
description. -/
def catalogHeader : String :=
  "# Semantic Catalog - The Metadata Hub\n\n" ++
  "The \x27semantic_catalog\x27 is a special view that acts as a metadata registry for the entire data schema. " ++
  "It provides a complete picture of all available semantic views, cubes, and their relationships.\n\n" ++
  "## Key Metadata Dimensions in the Catalog:\n\n"

/-- One iteration of the dimension loop of `generate_catalog_description`:
a bullet line when the dimension name contains one of the four keywords,
nothing otherwise. -/
def dimCatalogBullet (dim : Dimension) : String :=
  let dim_name := dim.name.getD "unknown"
  let dim_title := dim.title.getD ""
  let dim_desc := dim.description.getD "No description available."
  if ["join", "relationship", "cube_", "view_"].any
      (fun keyword => containsSub dim_name keyword) then
    "- **" ++ dim_title ++ " (`" ++ dim_name ++ "`)**: " ++ dim_desc ++ "\n"
  else ""

/-- `generate_catalog_description(catalog)`. -/
def generate_catalog_description (catalog : Entity) : String :=
  if catalog.isEmptyDict then ""
  else
    catalogHeader ++ pyJoin "" ((catalog.dimensions.getD []).map dimCatalogBullet)

/-! ## Field describers -/

/-- The `paragraph` list built by `generate_measure_description`. -/
def measureParagraph (cube_name : String) (m : Measure) : List String :=
  let m_name := m.name.getD "unknown"
  let m_title := m.title.getD m_name
  let m_short := m.shortTitle.getD ""
  let m_desc_text := m.description.getD "No description provided."
  let m_type := m.type.getD "unknown"
  let agg := m.aggType.getD "unknown"
  let visible := m.isVisible.getD false
  let pub := m.public.getD false
  let cumulative := m.cumulative.getD false
  ["The " ++ m_name ++ " is a measure in the " ++ cube_name ++ " cube.",
   "It is a " ++ agg ++ " aggregation of type " ++ m_type ++ ".",
   "Its full name is " ++ cube_name ++ "." ++ m_name,
   "Its title is \"" ++ m_title ++ "\"."] ++
  (if m_short.isEmpty then [] else
    ["Its short title is \"" ++ m_short ++ "\"."]) ++
  ["Description: " ++ m_desc_text ++ ".",
   "This measure is " ++ (if visible then "visible" else "not visible") ++
     " and " ++ (if pub then "public" else "private") ++ ".",
   "It is " ++ (if cumulative then "cumulative" else "not cumulative") ++ "."]

/-- `generate_measure_description(cube_name, m)`:
`"\n".join(paragraph) + "\n"`. -/
def generate_measure_description (cube_name : String) (m : Measure) : String :=
  pyJoin "\n" (measureParagraph cube_name m) ++ "\n"

/-- The `paragraph` list built by `generate_dimension_description`. -/
def dimensionParagraph (cube_name : String) (d : Dimension) : List String :=
  let d_name := d.name.getD "unknown"
  let d_title := d.title.getD d_name
  let d_type := d.type.getD "unknown"
  let d_desc_text := d.description.getD "No description provided."
  let primary := d.primaryKey.getD false
  let visible := d.isVisible.getD false
  let pub := d.public.getD false
  let suggest := d.suggestFilterValues.getD false
  let d_alias := d.aliasMember.getD ""
  let meta := d.meta.getD {}
  let full_name := cube_name ++ "." ++ d_name
  ["The " ++ d_name ++ " is a dimension in the " ++ cube_name ++ " cube.",
   "It is of type " ++ d_type ++ ".",
   "Its full name is " ++ full_name ++ ".",
   "Its title is \"" ++ d_title ++ "\".",
   "Description: " ++ d_desc_text ++ ".",
   "This dimension is " ++ (if visible then "visible" else "not visible") ++
     " and " ++ (if pub then "public" else "private") ++ ".",
   "It is " ++ (if primary then "a primary key" else "not a primary key") ++ ".",
   if suggest then "It suggests filter values." else "It does not suggest filter values."] ++
  (if d_alias.isEmpty then [] else
    ["It has an alias member \x27" ++ d_alias ++ "\x27, useful for joining across cubes."]) ++
  (match meta.subEntity with
   | some se => ["It belongs to the sub-entity \x27" ++ se ++ "\x27."]
   | none => [])

/-- `generate_dimension_description(cube_name, d)`. -/
def generate_dimension_description (cube_name : String) (d : Dimension) : String :=
  pyJoin "\n" (dimensionParagraph cube_name d) ++ "\n"

/-! ## `generate_cube_description` -/

/-- One brief measure bullet of the cube description. -/
def briefMeasureLine (m : Measure) : String :=
  let m_name := m.name.getD "unknown"
  let m_title := m.title.getD m_name
  let m_type := m.type.getD "unknown"
  let m_agg := m.aggType.getD "aggregation"
  let m_desc_text := pyStrip (m.description.getD "")
  "- **" ++ m_name ++ "**: A **" ++ m_agg ++ " ** measure with following description : " ++
    m_desc_text ++ "." ++
  "\" This measure has the title " ++ m_title ++ "\" and is of type " ++ m_type

/-- One brief dimension bullet of the cube description. -/
def briefDimLine (d : Dimension) : String :=
  let d_name := d.name.getD "unknown"
  let d_title := d.title.getD d_name
  let d_type := d.type.getD "unknown"
  let d_pk := d.primaryKey.getD false
  let d_vis := d.isVisible.getD false
  "- **" ++ d_name ++ "**: A **" ++ d_type ++ "** dimension " ++
    (if d_pk then "that serves as the primary key" else "") ++ ". " ++
  "This dimension has the title \"" ++ d_title ++ "\" and is " ++
    (if d_vis then "visible" else "not visible") ++ "."

/-- The `desc` list built by `generate_cube_description` (joined with
newlines by the function itself). -/
def generate_cube_description_parts (cube : Entity) : List String :=
  let name := cube.name.getD "UnknownCube"
  let title := cube.title.getD name
  let ctype := cube.type.getD "cube"
  let is_visible := cube.isVisible.getD true
  let is_public := cube.public.getD true
  let description := cube.description.getD "used for data analysis."
  let conn_components := cube.connectedComponents.getD []
  let measures := cube.measures.getD []
  let dims := cube.dimensions.getD []
  ["### Cube: " ++ title ++ "\n",
   "The **" ++ title ++ "** cube is a data structure wiht the description:" ++
     description ++ ".\n",
   "It has the following properties:",
   "- **Name:** " ++ name,
   "- **Title:** " ++ title,
   "- **Type:** " ++ pyCapitalize ctype,
   "- **Visibility:** " ++ (if is_visible then "visible" else "not visible") ++
     ", " ++ (if is_public then "public" else "private"),
   "- **Connected Components:** " ++ pyNatStr conn_components.length ++ "\n",
   "## Measures (Brief Summary)\n"] ++
  (if measures.isEmpty then [] else
    ("This cube contains **" ++ pyNatStr measures.length ++ " measures**:\n") ::
    measures.map briefMeasureLine ++ ["\n"]) ++
  ["## Dimensions (Brief Summary)\n"] ++
  (if dims.isEmpty then [] else
    ("This cube contains **" ++ pyNatStr dims.length ++ " dimensions**:\n") ::
    dims.map briefDimLine ++ ["\n"]) ++
  ["## Detailed Measure Descriptions\n",
   "Below is a detailed breakdown of each measure, including type, aggregation " ++
     "behavior, visibility, titles, and additional metadata:\n"] ++
  measures.map (generate_measure_description name) ++
  ["\n"] ++
  ["## Detailed Dimension Descriptions\n",
   "The following section provides detailed information for each dimension, " ++
     "including type, primary key status, visibility, titles, and other metadata:\n"] ++
  dims.map (generate_dimension_description name)

/-- `generate_cube_description(cube)`: `"\n".join(desc)`. -/
def generate_cube_description (cube : Entity) : String :=
  pyJoin "\n" (generate_cube_description_parts cube)

/-! ## `generate_view_description` and the business-context scan -/

/-- The `business_units` dictionary reached by
`self.taxonomy.get('hierarchy', {}).get('division', {}).get('business_units', {})`. -/
def hierBusinessUnits (t : Taxonomy) : List (String × BusinessUnit) :=
  (((t.hierarchy.getD {}).division.getD {}).business_units).getD []

/-- The business-context sentence appended when a taxonomy view entry
matches the view's name (the source reads `subdiv_data.get('display_name')`
and `v.get('functional_area')` without defaults, so an absent key renders
as `None`). -/
def contextSentence (subdiv_data : Subdivision) (v : TaxView) : String :=
  "**Business Context**: Belongs to the \x27" ++ pyStrOpt subdiv_data.display_name ++
  "\x27 subdivision and is used for \x27" ++ pyStrOpt v.functional_area ++ "\x27.\n\n"

/-- One subdivision's contribution to the business-context text: the inner
`for v in subdiv_data.get('views', [])` loop appends one sentence for the
first entry whose name matches and then `break`s out of that loop only. -/
def subdivContext (view_name : String) (subdiv_data : Subdivision) : String :=
  match (subdiv_data.views.getD []).find? (fun v => v.name == some view_name) with
  | some v => contextSentence subdiv_data v
  | none => ""

/-- The whole `if self.taxonomy:` block of `generate_view_description`: the
outer loops over business units and subdivisions are not exited by the
inner `break`, so every subdivision contributes independently. -/
def businessContext (t : Taxonomy) (view_name : String) : String :=
  if t.isEmptyDict then ""
  else
    pyJoin "" ((hierBusinessUnits t).map fun bu =>
      pyJoin "" (((bu.2.subdivisions).getD []).map fun sd =>
        subdivContext view_name sd.2))

/-- All subdivisions of the taxonomy hierarchy in iteration order
(business units in map order, then subdivisions in map order). -/
def allSubdivs (t : Taxonomy) : List Subdivision :=
  (hierBusinessUnits t).flatMap fun bu =>
    ((bu.2.subdivisions).getD []).map (·.2)

/-- One measure bullet of the view description (no defaults on the `get`
calls except the title falling back to the raw name). -/
def viewMeasureBullet (m : Measure) : String :=
  "- **" ++ pyStrOpt (m.title <|> m.name) ++ "** (`" ++ pyStrOpt m.name ++
  "`): A `" ++ pyStrOpt m.aggType ++ "` aggregation.\n"

/-- One dimension bullet of the view description. -/
def viewDimBullet (d : Dimension) : String :=
  "- **" ++ pyStrOpt (d.title <|> d.name) ++ "** (`" ++ pyStrOpt d.name ++
  "`): Data type is `" ++ pyStrOpt d.type ++ "`.\n"

/-- The guard of `generate_view_description`:
`if not view or view.get('name') in self.seen_entities: return ""`.
(The membership test uses the raw `get` result, so a nameless view is
compared as `None` and never found in the set of strings.) -/
def viewGuard (seen_entities : List String) (view : Entity) : Bool :=
  view.isEmptyDict ||
  (match view.name with
   | some n => seen_entities.contains n
   | none => false)

/-- The description text built by `generate_view_description` after its
guard has passed. -/
def view_description_body (t : Taxonomy) (view : Entity) : String :=
  let view_name := view.name.getD "Unknown"
  let measures := view.measures.getD []
  let dimensions := view.dimensions.getD []
  "# Semantic View: " ++ view.title.getD view_name ++ "\n\n" ++
  "**Technical Name**: `" ++ view_name ++ "`\n\n" ++
  "**Description**: " ++ view.description.getD "No description available." ++ "\n\n" ++
  businessContext t view_name ++
  (if measures.isEmpty then "" else
    "### Key Metrics (Measures) in " ++ view_name ++ ":\n" ++
    pyJoin "" (measures.map viewMeasureBullet)) ++
  (if dimensions.isEmpty then "" else
    "\n### Attributes (Dimensions) in " ++ view_name ++ ":\n" ++
    pyJoin "" (dimensions.map viewDimBullet)) ++
  "\n#### Detailed Fields for " ++ view_name ++ ":\n" ++
  pyJoin "" (measures.map fun m => generate_measure_description view_name m ++ "\n") ++
  pyJoin "" (dimensions.map fun d => generate_dimension_description view_name d ++ "\n")

/-- `generate_view_description(view)`, with the mutable
`self.seen_entities` set threaded explicitly: returns the produced text and
the updated set (the source adds `view.get('name', 'Unknown')` before
rendering). -/
def generate_view_description (t : Taxonomy) (seen_entities : List String)
    (view : Entity) : String × List String :=
  if viewGuard seen_entities view then ("", seen_entities)
  else (view_description_body t view, view.name.getD "Unknown" :: seen_entities)

/-! ## `generate_hierarchy_description`

The very first statement,
`org_name = self.taxonomy.get('organization', 'Organization').get("name", "Unknown")`,
calls `.get` on the *string* `'Organization'` whenever the `organization`
key is absent, which raises `AttributeError` in Python.  The embedding
therefore returns `Except String String`, erring exactly on that path. -/

/-- One functional-area bullet. -/
def functionalAreaLine (area : FunctionalArea) : String :=
  let display_name := (area.display_name <|> area.name).getD ""
  let description := area.description.getD ""
  "- " ++ display_name ++ ": " ++ description ++ ".\n"

/-- One taxonomy-view bullet of a subdivision. -/
def taxViewLine (view : TaxView) : String :=
  let name := view.name.getD ""
  let view_type := view.type.getD ""
  let functional_area := view.functional_area.getD ""
  let tags := view.tags.getD []
  let tags_text := if tags.isEmpty then "no associated tags" else pyJoin ", " tags
  "- **" ++ name ++ "**: This is a " ++ view_type ++ " view belonging to the " ++
  pyReplaceUnderscore functional_area ++ " functional area. " ++
  "It includes tags such as " ++ tags_text ++ ".\n"

/-- The text appended for one subdivision of one business unit. -/
def hierarchySubdivisionText (bu_name : String) (subdiv_name : String)
    (subdiv_data : Subdivision) : String :=
  let subdiv_desc := subdiv_data.description.getD "N/A"
  let functional_areas := subdiv_data.functional_areas.getD []
  let views := subdiv_data.views.getD []
  "##### Subdivision: " ++ subdiv_name ++ "\n\n" ++
  "The " ++ bu_name ++ " business unit has a **" ++ subdiv_name ++
    "** subdivision and is used for " ++ subdiv_desc ++ "\n\n" ++
  (if functional_areas.isEmpty then "" else
    "**Functional Areas:**\n" ++
    pyJoin "" (functional_areas.map functionalAreaLine) ++ "\n") ++
  (if views.isEmpty then "" else
    "**Views:**\n" ++ pyJoin "" (views.map taxViewLine) ++ "\n")

/-- The text appended for one business unit. -/
def hierarchyBusinessUnitText (div_name : String) (bu_name : String)
    (bu_data : BusinessUnit) : String :=
  let display_name := bu_data.display_name.getD "Unknown"
  let description := bu_data.description.getD "Unknown"
  let subdivisions := bu_data.subdivisions.getD []
  "#### Business Unit: " ++ bu_name ++ "\n\n" ++
  "The " ++ div_name ++ " division contains the **" ++ bu_name ++ "** business unit.\n\n" ++
  "The division with name is known as \x27" ++ display_name ++
    "\x27 and  is user for : " ++ description ++ ".\n\n" ++
  pyJoin "" (subdivisions.map fun sd => hierarchySubdivisionText bu_name sd.1 sd.2)

/-- One view-classification bullet. -/
def viewClassificationLine (vc_name : String) (vc_data : ViewClassification) : String :=
  let purpose := vc_data.purpose.getD "No purpose provided"
  let data_domains := vc_data.data_domains.getD []
  let primary_users := vc_data.primary_users.getD []
  let update_freq := vc_data.update_frequency.getD "unknown frequency"
  let domains_text := if data_domains.isEmpty then "no data domains" else pyJoin ", " data_domains
  let users_text := if primary_users.isEmpty then "no defined users" else pyJoin ", " primary_users
  "- **" ++ vc_name ++ "**: This classification is used for " ++ purpose ++ ". " ++
  "It covers data domains such as " ++ domains_text ++ ". " ++
  "The primary users of this view include " ++ users_text ++ ". " ++
  "The data for this classification is updated on a " ++ update_freq ++ " basis.\n"

/-- The view-classifications section (emitted only when the mapping is
non-empty). -/
def viewClassificationsSection (t : Taxonomy) : String :=
  let view_classifications := t.view_classifications.getD []
  if view_classifications.isEmpty then ""
  else
    "### View Classifications\n\n" ++
    "The business unit includes a set of classified views. " ++
    "Each classification describes the purpose of the view, the data domains it covers, " ++
    "its primary users, and how frequently its data is updated.\n\n" ++
    pyJoin "" (view_classifications.map fun vc => viewClassificationLine vc.1 vc.2) ++
    "\n"

/-- One view-relationship entry (three optional sub-lines). -/
def viewRelationshipLines (view_name : String) (vr_data : ViewRelationship) : String :=
  let related_views := vr_data.related_views.getD []
  let shared_measures := vr_data.shared_measures.getD []
  let shared_dimensions := vr_data.shared_dimensions.getD []
  let relationship_type := vr_data.relationship_type.getD ""
  let related_text := if related_views.isEmpty then "no directly related views"
    else pyJoin ", " related_views
  "- **" ++ view_name ++ "**:\n" ++
  "  - Related views: " ++ related_text ++ ".\n" ++
  (if shared_measures.isEmpty then "" else
    "  - Shared measures: " ++ pyJoin ", " shared_measures ++ ".\n") ++
  (if shared_dimensions.isEmpty then "" else
    "  - Shared dimensions: " ++ pyJoin ", " shared_dimensions ++ ".\n") ++
  (if relationship_type.isEmpty then "" else
    "  - Relationship type: " ++ relationship_type ++ ".\n") ++
  "\n"

/-- The view-relationships section. -/
def viewRelationshipsSection (t : Taxonomy) : String :=
  let view_relationships := t.view_relationships.getD []
  if view_relationships.isEmpty then ""
  else
    "### View Relationships\n\n" ++
    "This section describes how different views are connected to one another. " ++
    "Each entry lists related views, and when available, the shared measures, " ++
    "shared dimensions, or special relationship types that define how the views " ++
    "interact within the data ecosystem.\n\n" ++
    pyJoin "" (view_relationships.map fun vr => viewRelationshipLines vr.1 vr.2)

/-- The metadata-summary section. -/
def metadataSection (t : Taxonomy) : String :=
  let metadata := t.metadata.getD {}
  if metadata.isEmptyDict then ""
  else
    let total_views := (metadata.total_views.map pyNatStr).getD "N/A"
    let view_types := metadata.view_types.getD []
    let business_units := (metadata.business_units.map pyNatStr).getD "N/A"
    let subdivisions := (metadata.subdivisions.map pyNatStr).getD "N/A"
    let functional_areas_count := (metadata.functional_areas.map pyNatStr).getD "N/A"
    let view_type_lines := view_types.map fun vt =>
      "    - " ++ pyReplaceUnderscore vt.1 ++ ": " ++ pyNatStr vt.2
    let view_type_text := if view_type_lines.isEmpty
      then "    - No detailed view types listed"
      else pyJoin "\n" view_type_lines
    "### Metadata Summary\n\n" ++
    "The following metadata provides a high-level overview of the structure and " ++
    "composition of this business unit, including counts of views, view types, " ++
    "business units, subdivisions, and functional areas.\n\n" ++
    "- **Total Views:** " ++ total_views ++ "\n" ++
    "- **View Types:**\n" ++ view_type_text ++ "\n" ++
    "- **Business Units:** " ++ business_units ++ "\n" ++
    "- **Subdivisions:** " ++ subdivisions ++ "\n" ++
    "- **Functional Areas:** " ++ functional_areas_count ++ "\n\n"

/-- `generate_hierarchy_description()`.  When the `organization` key is
absent the fallback value is the string `'Organization'`, and the
immediately following `.get("name", "Unknown")` call raises
`AttributeError`; every other lookup carries a usable default. -/
def generate_hierarchy_description (t : Taxonomy) : Except String String :=
  match t.organization with
  | none => .error "AttributeError: \x27str\x27 object has no attribute \x27get\x27"
  | some org =>
    let org_name := org.name.getD "Unknown"
    let org_code := org.code.getD "N/A"
    let division := (t.hierarchy.getD {}).division.getD {}
    let div_name := division.name.getD "Unknown"
    let business_units := division.business_units.getD []
    .ok <|
      "# Business Hierarchy\n\n" ++
      "## Organizational Structure\n\n" ++
      "The **" ++ org_name ++ "** is the top-level organization. The code is " ++
        org_code ++ "\n\n" ++
      "### Division: " ++ div_name ++ "\n\n" ++
      "The " ++ org_name ++ " has a division called **" ++ div_name ++ "**.\n\n" ++
      pyJoin "" (business_units.map fun bu =>
        hierarchyBusinessUnitText div_name bu.1 bu.2) ++
      viewClassificationsSection t ++
      viewRelationshipsSection t ++
      metadataSection t ++
      "---\n\n"

/-! ## `generate_query_patterns` -/

/-- Purpose question (emitted when `cube.get('description')` is truthy). -/
def qaPurpose (cube : Entity) : String :=
  let cube_name := cube.name.getD "Unknown"
  let cube_title := cube.title.getD cube_name
  if (cube.description.getD "").isEmpty then ""
  else
    "**Question**: What is the purpose of the \x27" ++ cube_title ++ "\x27?\n" ++
    "**Answer**: The \x27" ++ cube_title ++ "\x27 (technical name: `" ++ cube_name ++
    "`) is used for: " ++ pyStrOpt cube.description ++ "\n\n"

/-- Metric-enumeration question, quoted-titles variant. -/
def qaMetricsQuoted (cube : Entity) : String :=
  let cube_name := cube.name.getD "Unknown"
  let cube_title := cube.title.getD cube_name
  let measures := cube.measures.getD []
  if measures.isEmpty then ""
  else
    let measure_names := measures.map fun m => "\x27" ++ pyStrOpt (m.title <|> m.name) ++ "\x27"
    "**Question**: What metrics are available in \x27" ++ cube_title ++ "\x27?\n" ++
    "**Answer**: The \x27" ++ cube_title ++ "\x27 provides the following metrics: " ++
    pyJoin ", " measure_names ++ ".\n\n"

/-- Metric-enumeration question, raw-names variant. -/
def qaMetricsRaw (cube : Entity) : String :=
  let cube_name := cube.name.getD "Unknown"
  let measures := cube.measures.getD []
  if measures.isEmpty then ""
  else
    let measure_names := measures.map fun m => m.name.getD "unknown"
    "**Question:** What measures are in " ++ cube_name ++ "?\n\n" ++
    "**Answer:** The " ++ cube_name ++ " cube has " ++ pyNatStr measures.length ++
    " measures: " ++ pyJoin ", " measure_names ++ ".\n\n"

/-- First-dimension data-type question. -/
def qaDimType (cube : Entity) : String :=
  let cube_name := cube.name.getD "Unknown"
  let cube_title := cube.title.getD cube_name
  match cube.dimensions.getD [] with
  | [] => ""
  | dim :: _ =>
    let dim_title := pyStrOpt (dim.title <|> dim.name)
    let dim_type := dim.type.getD "unknown"
    "**Question**: What is the data type of \x27" ++ dim_title ++ "\x27 in the \x27" ++
    cube_title ++ "\x27 view?\n" ++
    "**Answer**: In \x27" ++ cube_title ++ "\x27, the data type for \x27" ++ dim_title ++
    "\x27 is `" ++ dim_type ++ "`.\n\n"

/-- First-measure location question. -/
def qaMeasureLoc (cube : Entity) : String :=
  let cube_name := cube.name.getD "Unknown"
  let cube_title := cube.title.getD cube_name
  match cube.measures.getD [] with
  | [] => ""
  | measure :: _ =>
    let measure_title := pyStrOpt (measure.title <|> measure.name)
    "**Question**: Where can I find the \x27" ++ measure_title ++ "\x27 metric?\n" ++
    "**Answer**: The metric \x27" ++ measure_title ++ "\x27 is located in the **" ++
    cube_title ++ "** cube/view.\n\n"

/-- Primary-key question: `pk_dims = [d for d in dimensions if
d.get('primaryKey')]`, emitted only when that list is non-empty, using its
first element. -/
def qaPrimaryKey (cube : Entity) : String :=
  let cube_name := cube.name.getD "Unknown"
  match (cube.dimensions.getD []).filter (fun d => d.primaryKey.getD false) with
  | [] => ""
  | pk :: _ =>
    "**Question:** What is the primary key of " ++ cube_name ++ "?\n\n" ++
    "**Answer:** The primary key is " ++ pyStrOpt pk.name ++ ", " ++
    "which is a " ++ pk.type.getD "unknown" ++ " dimension.\n\n"

/-- Everything one loop iteration of `generate_query_patterns` appends for
one entity: the six conditional question/answer blocks in source order. -/
def entityQA (cube : Entity) : String :=
  qaPurpose cube ++ qaMetricsQuoted cube ++ qaMetricsRaw cube ++
  qaDimType cube ++ qaMeasureLoc cube ++ qaPrimaryKey cube

/-- The six conditional blocks of one entity that are actually emitted
(non-empty), in source order. -/
def emittedQABlocks (cube : Entity) : List String :=
  [qaPurpose cube, qaMetricsQuoted cube, qaMetricsRaw cube,
   qaDimType cube, qaMeasureLoc cube, qaPrimaryKey cube].filter (· ≠ "")

/-- `generate_query_patterns()`: iterates `for cube in cubes[:20]`. -/
def generate_query_patterns (md : Metadata) : String :=
  "# Example Questions and Answers\n\n" ++
  pyJoin "" (((md.cubes.getD []).take 20).map entityQA)

/-! ## Statistics and the orchestrator -/

/-- The dictionary returned by `_calculate_statistics`. -/
structure Stats where
  total_parts : Nat
  characters : Nat
  words : Nat
  estimated_tokens : Nat
deriving DecidableEq

/-- `_calculate_statistics(corpus)`; `int(len(corpus.split()) * 1.3)`
truncates toward zero, which on these magnitudes equals `13 * words / 10`
in natural division. -/
def calculate_statistics (corpus_parts : List String) (corpus : String) : Stats :=
  { total_parts := corpus_parts.length
    characters := corpus.data.length
    words := (pyWords corpus).length
    estimated_tokens := 13 * (pyWords corpus).length / 10 }

/-- `generate_full_corpus()`.  The six generation stages are commented out
in the source, so `self.corpus_parts` keeps its initial empty value; the
joined corpus and the statistics that the method computes (and persists)
are returned as a pair. -/
def generate_full_corpus (md : Metadata) (t : Taxonomy) : String × Stats :=
  let cubes_list := md.cubes.getD []
  let _catalog := catalog_views cubes_list
  let _semantic := semantic_views cubes_list
  let _cubes := data_cubes cubes_list
  let corpus_parts : List String := []
  let full_corpus := pyJoin "\n\n---\n\n" corpus_parts
  (full_corpus, calculate_statistics corpus_parts full_corpus)

/-! ## Specification-side definitions (used only to compare against the
source embedding in refinement statements) -/

/-- Modelled from the spec: `round(words * 1.3)` — Python `round` with
banker's rounding on the exact rational `13 * words / 10`. -/
def specRoundTokens (words : Nat) : Nat :=
  let q := 13 * words
  if q % 10 < 5 then q / 10
  else if 5 < q % 10 then q / 10 + 1
  else if (q / 10) % 2 = 0 then q / 10 else q / 10 + 1

/-- Modelled from the spec (amended): `floor(words * 1.3)` =
`int(words * 1.3)` truncation for non-negative word counts. -/
def specFloorTokens (words : Nat) : Nat := 13 * words / 10

/-- A concrete fully-populated entity: description, one measure, one
primary-key dimension (used in concrete evaluations). -/
def exFullEntity : Entity :=
  { name := some "C"
    description := some "D"
    measures := some [{ name := some "m1" }]
    dimensions := some [{ name := some "d1", primaryKey := some true }] }

/-- A concrete taxonomy whose two subdivisions both list a view named
`ViewX` (used in concrete evaluations). -/
def exDupTaxonomy : Taxonomy :=
  { hierarchy := some
      { division := some
          { name := some "Main"
            business_units := some
              [("BU",
                { subdivisions := some
                    [("A", { display_name := some "SubA"
                             views := some [{ name := some "ViewX"
                                              functional_area := some "fa_one" }] }),
                     ("B", { display_name := some "SubB"
                             views := some [{ name := some "ViewX"
                                              functional_area := some "fa_two" }] })] })] } } }

/-! ## General lemmas about the string helpers -/

theorem sappend_data (a b : String) : (a ++ b).data = a.data ++ b.data :=
  String.data_append a b

theorem sappend_ne_empty_left (a b : String) (h : a ≠ "") : a ++ b ≠ "" := by
  intro hc
  apply h
  apply String.ext
  have h2 := congrArg String.data hc
  rw [sappend_data] at h2
  have h3 : a.data = [] := (List.append_eq_nil.mp h2).1
  rw [h3]

theorem sappend_assoc (a b c : String) : a ++ b ++ c = a ++ (b ++ c) := by
  apply String.ext
  simp [sappend_data, List.append_assoc]

theorem sappend_empty_right (a : String) : a ++ "" = a := by
  apply String.ext
  rw [sappend_data]
  exact List.append_nil a.data

theorem sempty_append (a : String) : "" ++ a = a := by
  apply String.ext
  rw [sappend_data]
  rfl

theorem pyJoin_nil (sep : String) : pyJoin sep [] = "" := rfl

theorem pyJoin_nil_cons (x : String) (xs : List String) :
    pyJoin "" (x :: xs) = x ++ pyJoin "" xs := by
  cases xs with
  | nil => exact (sappend_empty_right x).symm
  | cons y ys =>
    show x ++ "" ++ pyJoin "" (y :: ys) = _
    rw [sappend_empty_right]

theorem pyJoin_nil_append (a b : List String) :
    pyJoin "" (a ++ b) = pyJoin "" a ++ pyJoin "" b := by
  induction a with
  | nil => exact (sempty_append _).symm
  | cons x xs ih =>
    rw [List.cons_append, pyJoin_nil_cons, pyJoin_nil_cons, ih, sappend_assoc]

theorem pyJoin_map_flatMap {α β : Type} (l : List α) (f : α → List β) (g : β → String) :
    pyJoin "" (l.map fun a => pyJoin "" ((f a).map g)) =
      pyJoin "" ((l.flatMap f).map g) := by
  induction l with
  | nil => rfl
  | cons a l ih =>
    rw [List.map_cons, pyJoin_nil_cons, ih, List.flatMap_cons, List.map_append,
      pyJoin_nil_append]

theorem pyJoin_filter_ne_empty (l : List String) :
    pyJoin "" (l.filter fun s => decide (s ≠ "")) = pyJoin "" l := by
  induction l with
  | nil => rfl
  | cons x xs ih =>
    by_cases hx : x = ""
    · subst hx
      rw [List.filter_cons_of_neg (by simp), ih, pyJoin_nil_cons, sempty_append]
    · rw [List.filter_cons_of_pos (by simp [hx]), pyJoin_nil_cons, pyJoin_nil_cons, ih]

theorem find?_append_first {α : Type} (p : α → Bool) (pre post : List α) (v : α)
    (hv : p v = true) (hpre : ∀ u ∈ pre, p u = false) :
    (pre ++ v :: post).find? p = some v := by
  induction pre with
  | nil => simpa using List.find?_cons_of_pos post hv
  | cons a l ih =>
    rw [List.cons_append, List.find?_cons_of_neg]
    · exact ih fun u hu => hpre u (List.mem_cons_of_mem a hu)
    · simp [hpre a (List.mem_cons_self a l)]

/-! ## Claims -/

/-- C1: for every pair of loaded input documents — in particular a metadata
document with zero entities — `generate_full_corpus` returns the empty
string, and the statistics it computes report `total_parts = 0`,
`characters = 0`, `words = 0`, `estimated_tokens = 0`, because every
generation stage that would append a block is disabled (commented out) in
the source. -/
theorem generate_full_corpus_always_empty (md : Metadata) (t : Taxonomy) :
    generate_full_corpus md t =
      ("", { total_parts := 0, characters := 0, words := 0, estimated_tokens := 0 }) :=
  rfl

/-- C4: evaluating `generate_hierarchy_description` on a taxonomy document
with no `organization` key does not resolve the absent key to a default but
fails: the fallback `'Organization'` is a string, and the chained
`.get("name", "Unknown")` raises `AttributeError` in Python.  (The claim
that a missing optional field is never an error is therefore right about
the intent and wrong about the code.) -/
theorem hierarchy_description_missing_organization_raises :
    generate_hierarchy_description
        { hierarchy := some
            { division := some
                { name := some "Enterprise"
                  business_units := some [("Finance", {})] } } } =
      .error "AttributeError: \x27str\x27 object has no attribute \x27get\x27" :=
  rfl

/-- C5 counterexample: two measure records of the same kind render to
paragraphs of different line counts — the short-title line is omitted when
`shortTitle` is absent rather than rendered as a default — refuting the
claim that every rendered paragraph of a kind has the same line count. -/
theorem measure_paragraph_line_count_differs :
    (measureParagraph "orders" { name := some "count", shortTitle := some "Cnt" }).length ≠
      (measureParagraph "orders" { name := some "total" }).length := by
  decide

/-- C5 (amended): a missing `description` is rendered as the explicit
default string `No description provided.` rather than omitted, but the
short-title line of a measure and the alias-member / sub-entity lines of a
dimension are omitted entirely when absent, so a measure paragraph has 7 or
8 lines and a dimension paragraph 8, 9 or 10 lines, the count depending
only on the presence of those optional attributes. -/
theorem field_describer_line_count_amended (cube_name : String) (m : Measure)
    (d : Dimension) :
    (measureParagraph cube_name m).length =
      7 + (if (m.shortTitle.getD "").isEmpty then 0 else 1) ∧
    ("Description: " ++ m.description.getD "No description provided." ++ "." ∈
      measureParagraph cube_name m) ∧
    (dimensionParagraph cube_name d).length =
      (8 + (if (d.aliasMember.getD "").isEmpty then 0 else 1)) +
        (if ((d.meta.getD {}).subEntity).isSome then 1 else 0) ∧
    ("Description: " ++ d.description.getD "No description provided." ++ "." ∈
      dimensionParagraph cube_name d) := by
  refine ⟨?_, ?_, ?_, ?_⟩
  · by_cases hs : (m.shortTitle.getD "").isEmpty <;>
      simp [measureParagraph, hs]
  · simp [measureParagraph]
  · by_cases ha : (d.aliasMember.getD "").isEmpty <;>
      rcases h : (d.meta.getD {}).subEntity with _ | se <;>
        simp [dimensionParagraph, ha, h]
  · simp [dimensionParagraph]

/-- C6 counterexample: on the two-word corpus `"a b"` the code stores
`estimated_tokens = int(2 * 1.3) = 2`, while `round(2 * 1.3) = 3`, so the
statistics do not satisfy `estimated_tokens == round(words * 1.3)`. -/
theorem estimated_tokens_not_rounded :
    (calculate_statistics [] "a b").estimated_tokens ≠
      specRoundTokens ((calculate_statistics [] "a b").words) := by
  decide

/-- C6 (amended): for every generated corpus string the statistics satisfy
`estimated_tokens == floor(words * 1.3)` — Python `int` truncation — which
agrees with `round(words * 1.3)` only up to one unit (they differ exactly
when `13 * words mod 10` rounds up). -/
theorem estimated_tokens_floor_amended (corpus_parts : List String) (corpus : String) :
    (calculate_statistics corpus_parts corpus).estimated_tokens =
      specFloorTokens ((calculate_statistics corpus_parts corpus).words) ∧
    ∀ w : Nat, specFloorTokens w ≤ specRoundTokens w ∧
      specRoundTokens w ≤ specFloorTokens w + 1 := by
  refine ⟨rfl, fun w => ?_⟩
  simp only [specFloorTokens, specRoundTokens]
  constructor <;> split_ifs <;> omega

/-- C2 counterexample: an entity named `semantic_catalog` whose type is
`cube` is selected both by the catalog comprehension (name equality) and by
the cube comprehension (type equality, which does not exclude the catalog
name), so the three partitions are not pairwise disjoint — name equality
does not take precedence over type for cube-typed entities. -/
theorem classification_overlap_at_cube_named_semantic_catalog :
    ({ name := some "semantic_catalog", type := some "cube" } : Entity) ∈
      catalog_views [{ name := some "semantic_catalog", type := some "cube" }] ∧
    ({ name := some "semantic_catalog", type := some "cube" } : Entity) ∈
      data_cubes [{ name := some "semantic_catalog", type := some "cube" }] := by
  decide

/-- C2 (amended): an entity of the `cubes` sequence belongs to exactly one
of the three partitions provided its type is `view` or `cube` (or its name
is `semantic_catalog`), and it is not simultaneously named
`semantic_catalog` and typed `cube`; outside these provisos the
classification is not a partition (a `semantic_catalog`-named cube lands in
two partitions, an entity of any other type and name in none). -/
theorem classification_partition_amended (cubes_list : List Entity) (c : Entity)
    (hc : c ∈ cubes_list)
    (htype : c.type = some "view" ∨ c.type = some "cube" ∨
      c.name = some "semantic_catalog")
    (hnot : ¬(c.name = some "semantic_catalog" ∧ c.type = some "cube")) :
    ((if c ∈ catalog_views cubes_list then 1 else 0) +
     (if c ∈ semantic_views cubes_list then 1 else 0) +
     (if c ∈ data_cubes cubes_list then 1 else 0) : Nat) = 1 := by
  have h1 : (c ∈ catalog_views cubes_list) ↔ c.name = some "semantic_catalog" := by
    simp [catalog_views, List.mem_filter, hc]
  have h2 : (c ∈ semantic_views cubes_list) ↔
      (c.type = some "view" ∧ ¬c.name = some "semantic_catalog") := by
    simp [semantic_views, List.mem_filter, hc]
  have h3 : (c ∈ data_cubes cubes_list) ↔ c.type = some "cube" := by
    simp [data_cubes, List.mem_filter, hc]
  by_cases hname : c.name = some "semantic_catalog"
  · have hcube : ¬c.type = some "cube" := fun hct => hnot ⟨hname, hct⟩
    simp [h1, h2, h3, hname, hcube]
  · rcases htype with ht | ht | ht
    · simp [h1, h2, h3, hname, ht]
    · simp [h1, h2, h3, hname, ht]
    · exact absurd ht hname

/-- C2 witness: the three-entity example of the specification — the
`semantic_catalog` view, a plain view and a cube — instantiates the amended
partition statement at the catalog entity. -/
theorem classification_partition_amended_witness :
    ((if ({ name := some "semantic_catalog", type := some "view" } : Entity) ∈
        catalog_views [{ name := some "semantic_catalog", type := some "view" },
          { name := some "V1", type := some "view" },
          { name := some "C1", type := some "cube" }] then 1 else 0) +
     (if ({ name := some "semantic_catalog", type := some "view" } : Entity) ∈
        semantic_views [{ name := some "semantic_catalog", type := some "view" },
          { name := some "V1", type := some "view" },
          { name := some "C1", type := some "cube" }] then 1 else 0) +
     (if ({ name := some "semantic_catalog", type := some "view" } : Entity) ∈
        data_cubes [{ name := some "semantic_catalog", type := some "view" },
          { name := some "V1", type := some "view" },
          { name := some "C1", type := some "cube" }] then 1 else 0) : Nat) = 1 :=
  classification_partition_amended _ _ (by decide) (by decide) (by decide)

/-- C8: the threaded `seen_entities` set (empty at construction) grows
monotonically, and rendering the same named view twice produces the full
description body the first time and the empty string the second time. -/
theorem view_dedup_second_render_empty (t : Taxonomy) (seen : List String)
    (view : Entity) (n : String) (hname : view.name = some n)
    (hne : view.isEmptyDict = false) (hseen : n ∉ seen) :
    generate_view_description t seen view = (view_description_body t view, n :: seen) ∧
    (generate_view_description t (generate_view_description t seen view).2 view).1 = "" ∧
    seen ⊆ (generate_view_description t seen view).2 := by
  have hcont : seen.contains n = false := by
    rcases h : seen.contains n with _ | _
    · rfl
    · exact absurd (List.elem_iff.mp h) hseen
  have hguard : viewGuard seen view = false := by
    simp [viewGuard, hne, hname, hcont, hseen]
  have hfirst : generate_view_description t seen view =
      (view_description_body t view, n :: seen) := by
    simp [generate_view_description, hguard, hname]
  refine ⟨hfirst, ?_, ?_⟩
  · rw [hfirst]
    have hguard2 : viewGuard (n :: seen) view = true := by
      simp [viewGuard, hname, List.elem_iff.mpr (List.mem_cons_self n seen)]
    simp [generate_view_description, hguard2]
  · rw [hfirst]
    exact List.subset_cons_self n seen

/-- C8 witness: a concrete named view rendered twice from the empty
seen-set — full body first, empty string second. -/
theorem view_dedup_second_render_empty_witness :
    generate_view_description {} []
        { name := some "orders_view", title := some "Orders" } =
      (view_description_body {} { name := some "orders_view", title := some "Orders" },
        ["orders_view"]) ∧
    (generate_view_description {}
        (generate_view_description {} []
          { name := some "orders_view", title := some "Orders" }).2
        { name := some "orders_view", title := some "Orders" }).1 = "" ∧
    ([] : List String) ⊆
      (generate_view_description {} []
        { name := some "orders_view", title := some "Orders" }).2 :=
  view_dedup_second_render_empty {} [] _ "orders_view" rfl (by decide) (by decide)

/-- C9: the entity-header renderer and the field describers use opposite
defaults for the same missing attributes — a cube with no `isVisible` and
no `public` key is described as `visible, public`, while a measure or
dimension with the same keys missing is described as `not visible` and
`private`. -/
theorem visibility_defaults_opposite (cube : Entity) (cube_name : String)
    (m : Measure) (d : Dimension)
    (h1 : cube.isVisible = none) (h2 : cube.public = none)
    (h3 : m.isVisible = none) (h4 : m.public = none)
    (h5 : d.isVisible = none) (h6 : d.public = none) :
    "- **Visibility:** visible, public" ∈ generate_cube_description_parts cube ∧
    "This measure is not visible and private." ∈ measureParagraph cube_name m ∧
    "This dimension is not visible and private." ∈ dimensionParagraph cube_name d := by
  refine ⟨?_, ?_, ?_⟩
  · simp +decide [generate_cube_description_parts, h1, h2]
  · simp +decide [measureParagraph, h3, h4]
  · simp +decide [dimensionParagraph, h5, h6]

/-- C9 witness: concrete records with the `isVisible` and `public` keys
absent instantiate the opposite-defaults statement. -/
theorem visibility_defaults_opposite_witness :
    "- **Visibility:** visible, public" ∈
      generate_cube_description_parts { name := some "orders" } ∧
    "This measure is not visible and private." ∈
      measureParagraph "orders" { name := some "count" } ∧
    "This dimension is not visible and private." ∈
      dimensionParagraph "orders" { name := some "id" } :=
  visibility_defaults_opposite { name := some "orders" } "orders"
    { name := some "count" } { name := some "id" } rfl rfl rfl rfl rfl rfl

/-- C10: `generate_catalog_description` emits a bullet line for a dimension
exactly when the dimension's name (default `unknown`) contains one of the
substrings `join`, `relationship`, `cube_`, `view_`; every other dimension
contributes nothing, and for a non-empty catalog the output is the fixed
header followed by the per-dimension bullets in order. -/
theorem catalog_bullet_keyword_filter (catalog : Entity) (dim : Dimension) :
    (dimCatalogBullet dim = "" ↔
      ¬(containsSub (dim.name.getD "unknown") "join" = true ∨
        containsSub (dim.name.getD "unknown") "relationship" = true ∨
        containsSub (dim.name.getD "unknown") "cube_" = true ∨
        containsSub (dim.name.getD "unknown") "view_" = true)) ∧
    (catalog.isEmptyDict = false →
      generate_catalog_description catalog =
        catalogHeader ++ pyJoin "" ((catalog.dimensions.getD []).map dimCatalogBullet)) := by
  constructor
  · by_cases hk : (["join", "relationship", "cube_", "view_"].any
        fun keyword => containsSub (dim.name.getD "unknown") keyword) = true
    · have hne : dimCatalogBullet dim ≠ "" := by
        simp only [dimCatalogBullet, hk, if_true]
        repeat apply sappend_ne_empty_left
        decide
      simp only [List.any_eq_true] at hk
      constructor
      · intro h0
        exact absurd h0 hne
      · intro hnot
        exfalso
        apply hnot
        rcases hk with ⟨kw, hmem, hsub⟩
        fin_cases hmem <;> simp_all
    · have hz : dimCatalogBullet dim = "" := by
        simp only [dimCatalogBullet]
        rw [if_neg hk]
      simp only [List.any_eq_true] at hk
      constructor
      · intro _ hor
        apply hk
        rcases hor with h | h | h | h
        · exact ⟨"join", by decide, h⟩
        · exact ⟨"relationship", by decide, h⟩
        · exact ⟨"cube_", by decide, h⟩
        · exact ⟨"view_", by decide, h⟩
      · intro _
        exact hz
  · intro hne
    simp [generate_catalog_description, hne]

/-- C10 witness: a concrete non-empty catalog with a keyword-bearing
dimension instantiates the keyword-filter statement. -/
theorem catalog_bullet_keyword_filter_witness :
    (dimCatalogBullet { name := some "cube_join_field" } = "" ↔
      ¬(containsSub "cube_join_field" "join" = true ∨
        containsSub "cube_join_field" "relationship" = true ∨
        containsSub "cube_join_field" "cube_" = true ∨
        containsSub "cube_join_field" "view_" = true)) ∧
    generate_catalog_description
        { name := some "semantic_catalog",
          dimensions := some [{ name := some "cube_join_field" }] } =
      catalogHeader ++ pyJoin ""
        ((({ name := some "semantic_catalog",
             dimensions := some [{ name := some "cube_join_field" }] } :
            Entity).dimensions.getD []).map dimCatalogBullet) :=
  ⟨(catalog_bullet_keyword_filter { name := some "semantic_catalog" }
      { name := some "cube_join_field" }).1,
   (catalog_bullet_keyword_filter
      { name := some "semantic_catalog",
        dimensions := some [{ name := some "cube_join_field" }] }
      { name := some "cube_join_field" }).2 (by decide)⟩

set_option maxRecDepth 10000 in
/-- C3 counterexample: a view name listed in two different subdivisions
receives two Business Context sentences, not one — the `break` leaves only
the innermost loop, so the scan does not stop at the first matching
subdivision. -/
theorem business_context_duplicated_across_subdivisions :
    countSub (generate_view_description exDupTaxonomy [] { name := some "ViewX" }).1
      "**Business Context**" = 2 := by
  decide

/-- C3 (amended): the view describer appends one Business Context sentence
for every subdivision (in business-unit, then subdivision iteration order)
whose `views` list contains a matching entry, each sentence taken from the
first matching entry of that subdivision's list; a subdivision with no
matching entry contributes nothing, and a view name present in two
subdivisions therefore yields two sentences. -/
theorem business_context_per_subdivision_first_match (t : Taxonomy) (vn : String)
    (sd sd2 : Subdivision) (pre post : List TaxView) (v : TaxView)
    (hviews : sd.views = some (pre ++ v :: post))
    (hmatch : v.name = some vn)
    (hpre : ∀ u ∈ pre, u.name ≠ some vn)
    (hnone : ∀ u ∈ sd2.views.getD [], u.name ≠ some vn) :
    businessContext t vn =
      (if t.isEmptyDict then ""
       else pyJoin "" ((allSubdivs t).map (subdivContext vn))) ∧
    subdivContext vn sd = contextSentence sd v ∧
    subdivContext vn sd2 = "" := by
  refine ⟨?_, ?_, ?_⟩
  · simp only [businessContext, allSubdivs]
    split
    · rfl
    · rw [← pyJoin_map_flatMap (hierBusinessUnits t)
        (fun bu => ((bu.2.subdivisions).getD []).map (·.2)) (subdivContext vn)]
      refine congrArg (pyJoin "") (List.map_congr_left fun a _ => ?_)
      rw [List.map_map]
      rfl
  · simp only [subdivContext, hviews, Option.getD_some]
    rw [find?_append_first]
    · simp [hmatch]
    · intro u hu
      have := hpre u hu
      simp [this]
  · simp only [subdivContext]
    rw [List.find?_eq_none.mpr]
    intro u hu
    have := hnone u hu
    simp [this]

/-- C3 witness: a concrete matching subdivision (first entry matches) and a
concrete non-matching subdivision instantiate the amended statement. -/
theorem business_context_per_subdivision_first_match_witness :
    businessContext {} "ViewX" =
      (if ({} : Taxonomy).isEmptyDict then ""
       else pyJoin "" ((allSubdivs {}).map (subdivContext "ViewX"))) ∧
    subdivContext "ViewX"
        { display_name := some "SubA"
          views := some [{ name := some "ViewX", functional_area := some "fa_one" }] } =
      contextSentence
        { display_name := some "SubA"
          views := some [{ name := some "ViewX", functional_area := some "fa_one" }] }
        { name := some "ViewX", functional_area := some "fa_one" } ∧
    subdivContext "ViewX" { views := some [{ name := some "ViewY" }] } = "" :=
  business_context_per_subdivision_first_match {} "ViewX"
    { display_name := some "SubA"
      views := some [{ name := some "ViewX", functional_area := some "fa_one" }] }
    { views := some [{ name := some "ViewY" }] }
    [] [] { name := some "ViewX", functional_area := some "fa_one" }
    rfl rfl (by simp) (by decide)

set_option maxRecDepth 10000 in
/-- C7 counterexample: an entity carrying a description, one measure and
one primary-key dimension receives six question/answer pairs (the metric
enumeration is emitted in two variants), refuting the bound of five pairs
per entity. -/
theorem query_patterns_six_pairs :
    countSub (generate_query_patterns { cubes := some [exFullEntity] })
      "**Question" = 6 := by
  decide

/-- C7 (amended): the synthesizer draws only from the first 20 entities in
document order; per entity it emits the concatenation of six independent
conditional blocks — so at most six question/answer pairs, not five — and
a block is emitted exactly when its producing field is present (shown here
for the purpose block and for the primary-key block, which uses the first
dimension flagged `primaryKey` and is omitted entirely when none exists). -/
theorem query_patterns_amended (md : Metadata) (cube : Entity) :
    generate_query_patterns md =
      generate_query_patterns { cubes := some ((md.cubes.getD []).take 20) } ∧
    entityQA cube = pyJoin "" (emittedQABlocks cube) ∧
    (emittedQABlocks cube).length ≤ 6 ∧
    (qaPurpose cube = "" ↔ (cube.description.getD "").isEmpty = true) ∧
    (qaPrimaryKey cube = "" ↔
      ∀ d ∈ cube.dimensions.getD [], d.primaryKey.getD false = false) := by
  refine ⟨?_, ?_, ?_, ?_, ?_⟩
  · simp [generate_query_patterns, List.take_take]
  · simp only [entityQA, emittedQABlocks, pyJoin_filter_ne_empty, pyJoin_nil_cons,
      pyJoin_nil, sappend_assoc, sappend_empty_right]
  · simp only [emittedQABlocks]
    exact (List.length_filter_le _ _).trans (by simp)
  · by_cases hd : (cube.description.getD "").isEmpty = true
    · simp [qaPurpose, hd]
    · have hne : qaPurpose cube ≠ "" := by
        simp only [qaPurpose]
        rw [if_neg hd]
        repeat apply sappend_ne_empty_left
        decide
      simp [hne, hd]
  · rcases h : (cube.dimensions.getD []).filter (fun d => d.primaryKey.getD false)
      with _ | ⟨pk, rest⟩
    · have hall := List.filter_eq_nil_iff.mp h
      simp only [qaPrimaryKey, h]
      constructor
      · intro _ d hd
        have := hall d hd
        simpa using this
      · intro _
        trivial
    · have hpkmem : pk ∈ (cube.dimensions.getD []).filter
          (fun d => d.primaryKey.getD false) := by
        rw [h]
        exact List.mem_cons_self pk rest
      obtain ⟨hmem, hp⟩ := List.mem_filter.mp hpkmem
      have hne : qaPrimaryKey cube ≠ "" := by
        simp only [qaPrimaryKey, h]
        repeat apply sappend_ne_empty_left
        decide
      refine ⟨fun h0 => absurd h0 hne, fun hall => ?_⟩
      exact absurd hp (by simp [hall pk hmem])

/-- C7 witness: the six-block structure and the primary-key condition
instantiated at a concrete fully-populated entity. -/
theorem query_patterns_amended_witness :
    (emittedQABlocks exFullEntity).length ≤ 6 ∧
    (qaPrimaryKey exFullEntity = "" ↔
      ∀ d ∈ exFullEntity.dimensions.getD [], d.primaryKey.getD false = false) :=
  ⟨(query_patterns_amended { cubes := some [] } exFullEntity).2.2.1,
   (query_patterns_amended { cubes := some [] } exFullEntity).2.2.2.2⟩

end CorpusGen
